import Mathlib

/-!
Verification of the CSPN (conditional sum-product network) parameter-injection
core of this repository.

The model below is a shallow embedding of `src/cspn.py` (namespace `Cspn`, the
primary variant) and of
`src/src/spn/experiments/RandomSPNs_layerwise/cspn.py` (namespace `CspnExp`,
the second variant).  Tensors are modelled as records carrying their shape
together with a total indexing function into the reals; the per-layer walks of
`set_params`, `clear_params` and `compute_weights` are structural recursions
over the list of inner layers.  Network modules (feature extractor, the
intermediate MLPs and the linear heads) are deterministic functions, which is
faithful to evaluation mode, where dropout is disabled.
-/

/-- A 5-dimensional tensor: its shape and a total indexing function.
Models the 5-D sum-node weight tensors of shape
(num weight sets, in features, in channels, out channels, num repetitions). -/
structure Tensor5 where
  d0 : ℕ
  d1 : ℕ
  d2 : ℕ
  d3 : ℕ
  d4 : ℕ
  data : ℕ → ℕ → ℕ → ℕ → ℕ → ℝ

/-- A 4-dimensional tensor, modelling the leaf parameter tensors of shape
(num weight sets, in features, I, R). -/
structure Tensor4 where
  d0 : ℕ
  d1 : ℕ
  d2 : ℕ
  d3 : ℕ
  data : ℕ → ℕ → ℕ → ℕ → ℝ

/-- Row-major `view` of a per-sample flat vector as a 5-D tensor, modelling
`head_output.view(weight_shape)` where the head output has shape
(batch, n1 * n2 * n3 * n4). -/
def view5 (n0 n1 n2 n3 n4 : ℕ) (flat : ℕ → ℕ → ℝ) : Tensor5 :=
  ⟨n0, n1, n2, n3, n4, fun n i j k l => flat n (((i * n2 + j) * n3 + k) * n4 + l)⟩

/-- Row-major `view` of a per-sample flat vector as a 4-D tensor, modelling
`head_output.view(dist_param_shape)`. -/
def view4 (n0 n1 n2 n3 : ℕ) (flat : ℕ → ℕ → ℝ) : Tensor4 :=
  ⟨n0, n1, n2, n3, fun n i j k => flat n ((i * n2 + j) * n3 + k)⟩

/-- Pointwise map over a 4-D tensor (shape preserving), modelling the
elementwise application of a bounding function to a parameter tensor. -/
def mapTensor4 (f : ℝ → ℝ) (t : Tensor4) : Tensor4 :=
  ⟨t.d0, t.d1, t.d2, t.d3, fun n i j k => f (t.data n i j k)⟩

/-- `F.log_softmax(weights, dim=2)`: log-softmax over the input-channel axis
(axis 2) of a 5-D weight tensor. -/
noncomputable def log_softmax_dim2 (t : Tensor5) : Tensor5 :=
  ⟨t.d0, t.d1, t.d2, t.d3, t.d4, fun n i j k l =>
    t.data n i j k l - Real.log (∑ q ∈ Finset.range t.d2, Real.exp (t.data n i q k l))⟩

/-- Static dimensions of a Sum layer: `(in_features, in_channels, out_channels,
num_repetitions)`, fixed at circuit construction. -/
structure SumDims where
  in_features : ℕ
  in_channels : ℕ
  out_channels : ℕ
  num_repetitions : ℕ

/-- An inner layer of the base circuit: either a Sum layer (carrying its
dimensions) or a CrossProduct layer.  `set_params` distinguishes the two with
an `isinstance(layer, Sum)` check. -/
inductive InnerLayer where
  | sum (dims : SumDims)
  | crossProduct

/-- The per-layer mutable state written by `set_params` / `clear_params`:
a Sum layer holds its injected `weight_param` tensor, a CrossProduct layer
holds its `num_conditionals` attribute. -/
inductive InnerState where
  | sum (weight_param : Tensor5)
  | crossProduct (num_conditionals : ℕ)

/-- The static (per-instance, evaluation-mode) data of a CSPN: the circuit
topology dimensions and the learned network modules, each modelled as a
deterministic function.  `sum_param_heads i` is the i-th linear head of the
`nn.ModuleList`; construction creates one head per Sum-bearing inner layer
plus one final head for the root. -/
structure CSPNNet where
  inner_layers : List InnerLayer
  root : SumDims
  leaf_in_features : ℕ
  I : ℕ
  R : ℕ
  C : ℕ
  feat_layers : (ℕ → ℝ) → ℕ → ℝ
  sum_layers : (ℕ → ℝ) → ℕ → ℝ
  dist_layers : (ℕ → ℝ) → ℕ → ℝ
  sum_param_heads : ℕ → (ℕ → ℝ) → ℕ → ℝ
  dist_mean_head : (ℕ → ℝ) → ℕ → ℝ
  dist_std_head : (ℕ → ℝ) → ℕ → ℝ

/-- The mutable parameter slots of a CSPN, overwritten by `set_params` and
`clear_params`: one state per inner layer, the root `weight_param`, the
sampling root `weight_param`, and the leaf `mean_param` / `std_param`. -/
structure ParamState where
  inner_states : List InnerState
  root_weight : Tensor5
  sampling_root_weight : Tensor5
  leaf_mean : Tensor4
  leaf_std : Tensor4

/-- Modelled from the spec: `bounded_means` is the leaf's bounding transform
for the mean parameters (`self._leaf.base_leaf.bounded_means`; the leaf class
is not under src/).  The spec describes it as a bounding transform for
bounded-support variables, modelled here as the hyperbolic tangent. -/
noncomputable def bounded_means (x : ℝ) : ℝ := Real.tanh x

/-- Modelled from the spec: `bounded_stds` is the leaf's positivity-enforcing
bounding transform for the standard-deviation parameters
(`self._leaf.base_leaf.bounded_stds`; the leaf class is not under src/).  The
spec requires the output to be strictly positive; modelled here as the
exponential. -/
noncomputable def bounded_stds (x : ℝ) : ℝ := Real.exp x

namespace Cspn

/-- The inner-layer walk of `CSPN.set_params` in `src/cspn.py`: iterate over
`self._inner_layers` with a head counter `i` starting at 0; a Sum layer gets
the log-softmax-normalized reshaped output of head `i` (and increments `i`),
any other layer gets its `num_conditionals` attribute set.  Returns the new
per-layer states together with the final head counter (used for the root). -/
noncomputable def set_inner_params (net : CSPNNet) (num_conditionals : ℕ)
    (sum_weights_pre_output : ℕ → ℕ → ℝ) :
    List InnerLayer → ℕ → List InnerState × ℕ
  | [], i => ([], i)
  | InnerLayer.sum dims :: rest, i =>
      let weights := view5 num_conditionals dims.in_features dims.in_channels
        dims.out_channels dims.num_repetitions
        (fun n => net.sum_param_heads i (sum_weights_pre_output n))
      let tail := set_inner_params net num_conditionals sum_weights_pre_output rest (i + 1)
      (InnerState.sum (log_softmax_dim2 weights) :: tail.1, tail.2)
  | InnerLayer.crossProduct :: rest, i =>
      let tail := set_inner_params net num_conditionals sum_weights_pre_output rest i
      (InnerState.crossProduct num_conditionals :: tail.1, tail.2)

/-- `CSPN.set_params` of `src/cspn.py`.  `num_conditionals` is
`feat_inp.shape[0]` and `feat_inp n` is the n-th conditioning sample,
flattened; the previous parameter state is taken (mirroring the in-place
mutation of the Python method) and fully overwritten.  The feature extractor,
the sum/dist intermediate MLPs and the heads are applied per sample;
`features.flatten(start_dim=1)` is the identity on the already-flat per-sample
feature vector of the model. -/
noncomputable def set_params (net : CSPNNet) (_prev : ParamState) (num_conditionals : ℕ)
    (feat_inp : ℕ → ℕ → ℝ) : ParamState :=
  let features : ℕ → ℕ → ℝ := fun n => net.feat_layers (feat_inp n)
  let sum_weights_pre_output : ℕ → ℕ → ℝ := fun n => net.sum_layers (features n)
  let inner := set_inner_params net num_conditionals sum_weights_pre_output net.inner_layers 0
  let root_weights := view5 num_conditionals net.root.in_features net.root.in_channels
    net.root.out_channels net.root.num_repetitions
    (fun n => net.sum_param_heads inner.2 (sum_weights_pre_output n))
  let dist_weights_pre_output : ℕ → ℕ → ℝ := fun n => net.dist_layers (features n)
  let dist_means := view4 num_conditionals net.leaf_in_features net.I net.R
    (fun n => net.dist_mean_head (dist_weights_pre_output n))
  let dist_stds := view4 num_conditionals net.leaf_in_features net.I net.R
    (fun n => net.dist_std_head (dist_weights_pre_output n))
  { inner_states := inner.1
    root_weight := log_softmax_dim2 root_weights
    sampling_root_weight :=
      ⟨num_conditionals, 1, 1, 1, 1, fun _ _ _ _ _ => Real.log (1 / (net.C : ℝ))⟩
    leaf_mean := mapTensor4 bounded_means dist_means
    leaf_std := mapTensor4 bounded_stds dist_stds }

/-- The inner-layer walk of `CSPN.clear_params`: Sum layers get a zero tensor
with leading dimension 0, other layers get `num_conditionals = 0`. -/
def clear_inner_params : List InnerLayer → List InnerState
  | [] => []
  | InnerLayer.sum dims :: rest =>
      InnerState.sum ⟨0, dims.in_features, dims.in_channels, dims.out_channels,
        dims.num_repetitions, fun _ _ _ _ _ => 0⟩ :: clear_inner_params rest
  | InnerLayer.crossProduct :: rest =>
      InnerState.crossProduct 0 :: clear_inner_params rest

/-- `CSPN.clear_params` of `src/cspn.py`: every parameter slot becomes a zero
tensor whose leading (weight-set) dimension is 0. -/
def clear_params (net : CSPNNet) : ParamState :=
  { inner_states := clear_inner_params net.inner_layers
    root_weight := ⟨0, net.root.in_features, net.root.in_channels, net.root.out_channels,
      net.root.num_repetitions, fun _ _ _ _ _ => 0⟩
    sampling_root_weight := ⟨0, 1, 1, 1, 1, fun _ _ _ _ _ => 0⟩
    leaf_mean := ⟨0, net.leaf_in_features, net.I, net.R, fun _ _ _ _ => 0⟩
    leaf_std := ⟨0, net.leaf_in_features, net.I, net.R, fun _ _ _ _ => 0⟩ }

/-- The shape logic of `CSPN.forward` in `src/cspn.py`, on the data tensor
shape.  `weight_sets` is read as the leading dimension of the injected leaf
mean tensor (the leaf property `means` used in the source preserves the
leading dimension of `mean_param`; the leaf class is not under src/).
A 3-D input must have its second dimension equal to `weight_sets`; a 2-D
input must have its first dimension equal to `weight_sets` and is unsqueezed
with a singleton leading batch axis.  The returned shape is the shape of the
tensor delegated to the base circuit forward; an assertion failure is an
error. -/
def forward (s : ParamState) (x_shape : List ℕ) : Except String (List ℕ) :=
  let weight_sets := s.leaf_mean.d0
  match x_shape with
  | [b, w, f] =>
      if w = weight_sets then Except.ok [b, w, f]
      else Except.error "the number of conditionals in the input data does not match the number of conditionals the CSPN weights expect"
  | [w, f] =>
      if w = weight_sets then Except.ok [1, w, f]
      else Except.error "the number of samples does not match the number of conditionals"
  | other => Except.ok other

/-- `CSPN.sample` of `src/cspn.py`.  A condition is modelled as its batch size
together with its per-sample flat data; if present, `set_params` runs first.
The assertion `class_index is None or condition.shape[0] == len(class_index)`
is then evaluated: if a class index is supplied while `condition` is `None`,
evaluating `condition.shape` raises an `AttributeError`; if the lengths
disagree the assertion fails.  On success the call delegates to the base
circuit sample with the (possibly updated) parameter state and the class
index. -/
noncomputable def sample (net : CSPNNet) (s : ParamState)
    (condition : Option (ℕ × (ℕ → ℕ → ℝ))) (class_index : Option (List ℕ)) :
    Except String (ParamState × Option (List ℕ)) :=
  let s2 := match condition with
    | some c => set_params net s c.1 c.2
    | none => s
  match class_index with
  | none => Except.ok (s2, none)
  | some idx =>
      match condition with
      | none => Except.error "AttributeError: NoneType object has no attribute shape"
      | some c =>
          if c.1 = idx.length then Except.ok (s2, some idx)
          else Except.error "The batch size of the condition must equal the length of the class index list if they are provided!"

/-- The feature extractor built by `CSPN.create_feat_layers`: either the
identity or a fully-connected stack with the given layer widths. -/
inductive FeatExtractor where
  | identity
  | fullyConnected (layer_sizes : List ℕ)

/-- The construction logic of `CSPN.create_feat_layers` in `src/cspn.py`,
applied to the configured conditioning shape `feature_dim` and the configured
`config.feat_layers` widths (the empty list models a falsy `feat_layers`).
A shape of length other than 1 or 3 fails the entry assertion; a 3-D shape
immediately hits the unconditional statement
`assert False, "Adapt conv layer feat extraction to config.feat_layer_sizes"`,
so the convolutional branch below it is unreachable; a 1-D shape builds a
fully-connected stack (or the identity when no widths are configured). -/
def create_feat_layers (feature_dim : List ℕ) (config_feat_layers : List ℕ) :
    Except String FeatExtractor :=
  if feature_dim.length = 3 ∨ feature_dim.length = 1 then
    if feature_dim.length = 3 then
      Except.error "Adapt conv layer feat extraction to config.feat_layer_sizes"
    else
      if config_feat_layers.isEmpty then Except.ok FeatExtractor.identity
      else Except.ok (FeatExtractor.fullyConnected (feature_dim.headD 0 :: config_feat_layers))
  else
    Except.error "Do not know how to construct feature extraction layers for features of this dim"

end Cspn

namespace CspnExp

/-- The parameter slots written by `CSPN.compute_weights` of the second
variant (`src/src/spn/experiments/RandomSPNs_layerwise/cspn.py`): the Sum
layers' weights in order, the root weights, and the leaf means and stds.
This variant touches neither a sampling root nor any per-layer
`num_conditionals` attribute. -/
structure RawParamState where
  sum_weights : List Tensor5
  root_weight : Tensor5
  leaf_mean : Tensor4
  leaf_std : Tensor4

/-- The inner-layer walk of `CSPN.compute_weights` of the second variant:
each Sum layer gets the raw reshaped output of its head (no normalization);
non-Sum layers are skipped. -/
noncomputable def compute_inner_weights (net : CSPNNet) (batch_size : ℕ)
    (sum_weights_pre_output : ℕ → ℕ → ℝ) :
    List InnerLayer → ℕ → List Tensor5 × ℕ
  | [], i => ([], i)
  | InnerLayer.sum dims :: rest, i =>
      let weights := view5 batch_size dims.in_features dims.in_channels
        dims.out_channels dims.num_repetitions
        (fun n => net.sum_param_heads i (sum_weights_pre_output n))
      let tail := compute_inner_weights net batch_size sum_weights_pre_output rest (i + 1)
      (weights :: tail.1, tail.2)
  | InnerLayer.crossProduct :: rest, i =>
      compute_inner_weights net batch_size sum_weights_pre_output rest i

/-- `CSPN.compute_weights` of the second variant
(`src/src/spn/experiments/RandomSPNs_layerwise/cspn.py`): the raw reshaped
head outputs are assigned to the sum-weight and leaf mean/std slots, with no
log-space normalization and no bounding (its `conv_layers` attribute plays
the role of the primary variant's `feat_layers`). -/
noncomputable def compute_weights (net : CSPNNet) (batch_size : ℕ)
    (feat_inp : ℕ → ℕ → ℝ) : RawParamState :=
  let features : ℕ → ℕ → ℝ := fun n => net.feat_layers (feat_inp n)
  let sum_weights_pre_output : ℕ → ℕ → ℝ := fun n => net.sum_layers (features n)
  let inner := compute_inner_weights net batch_size sum_weights_pre_output net.inner_layers 0
  let root_weights := view5 batch_size net.root.in_features net.root.in_channels
    net.root.out_channels net.root.num_repetitions
    (fun n => net.sum_param_heads inner.2 (sum_weights_pre_output n))
  let dist_weights_pre_output : ℕ → ℕ → ℝ := fun n => net.dist_layers (features n)
  { sum_weights := inner.1
    root_weight := root_weights
    leaf_mean := view4 batch_size net.leaf_in_features net.I net.R
      (fun n => net.dist_mean_head (dist_weights_pre_output n))
    leaf_std := view4 batch_size net.leaf_in_features net.I net.R
      (fun n => net.dist_std_head (dist_weights_pre_output n)) }

end CspnExp

/-- A small concrete CSPN instance used to instantiate the theorems: one Sum
inner layer with 2 input channels, one CrossProduct layer, a root with 2 input
channels, C = 2 root classes, identity feature and intermediate layers, and
heads that output the zero vector. -/
def exNet : CSPNNet :=
  { inner_layers := [InnerLayer.sum ⟨1, 2, 1, 1⟩, InnerLayer.crossProduct]
    root := ⟨1, 2, 1, 1⟩
    leaf_in_features := 1
    I := 1
    R := 1
    C := 2
    feat_layers := fun v => v
    sum_layers := fun v => v
    dist_layers := fun v => v
    sum_param_heads := fun _ _ _ => 0
    dist_mean_head := fun _ _ => 0
    dist_std_head := fun _ _ => 0 }

/-- The cleared parameter state of `exNet`, used as the pre-existing state in
concrete instantiations. -/
def ex0 : ParamState := Cspn.clear_params exNet

/-- The all-zero conditioning batch used in concrete instantiations. -/
def exInp0 : ℕ → ℕ → ℝ := fun _ _ => 0

/-- Key normalization lemma: exponentiating a log-softmax-normalized family
and summing over the normalization axis yields 1 (for a nonempty axis). -/
theorem sum_exp_sub_log_sum (c : ℕ) (hc : 0 < c) (f : ℕ → ℝ) :
    ∑ j ∈ Finset.range c, Real.exp (f j - Real.log (∑ q ∈ Finset.range c, Real.exp (f q))) = 1 := by
  have hS : 0 < ∑ q ∈ Finset.range c, Real.exp (f q) :=
    Finset.sum_pos (fun q _ => Real.exp_pos (f q)) (Finset.nonempty_range_iff.mpr hc.ne.symm)
  simp only [Real.exp_sub, Real.exp_log hS]
  rw [← Finset.sum_div, div_self hS.ne.symm]

/-- The inner walk of `set_params` assigns, to each Sum layer position, the
log-softmax-normalized reshaped output of some head, with the layer's own
dimensions. -/
theorem set_inner_params_get (net : CSPNNet) (N : ℕ) (pre : ℕ → ℕ → ℝ) :
    ∀ (L : List InnerLayer) (i p : ℕ) (dims : SumDims),
      L.get? p = some (InnerLayer.sum dims) →
      ∃ hIdx, (Cspn.set_inner_params net N pre L i).1.get? p =
        some (InnerState.sum (log_softmax_dim2 (view5 N dims.in_features dims.in_channels
          dims.out_channels dims.num_repetitions (fun n => net.sum_param_heads hIdx (pre n))))) := by
  intro L
  induction L with
  | nil => intro i p dims h; simp [List.get?] at h
  | cons head rest ih =>
      intro i p dims h
      cases head with
      | sum d =>
          cases p with
          | zero =>
              have hd : d = dims := by
                have := h
                simp [List.get?] at this
                cases this
                rfl
              subst hd
              exact ⟨i, rfl⟩
          | succ p' =>
              obtain ⟨hIdx, hh⟩ := ih (i + 1) p' dims (by simpa [List.get?] using h)
              exact ⟨hIdx, by simpa [Cspn.set_inner_params, List.get?] using hh⟩
      | crossProduct =>
          cases p with
          | zero => simp [List.get?] at h
          | succ p' =>
              obtain ⟨hIdx, hh⟩ := ih i p' dims (by simpa [List.get?] using h)
              exact ⟨hIdx, by simpa [Cspn.set_inner_params, List.get?] using hh⟩

/-- C1: for every conditioning batch of size N accepted by `set_params`, after
`set_params` returns, every Sum-bearing inner layer's injected weight tensor
and the root's injected weight tensor has shape
(N, in_features, in_channels, out_channels, num_repetitions) and is
log-softmax-normalized over the input-channel axis (dim 2), so that for every
(weight set, feature, output channel, repetition) the exponentiated weights
sum to 1 over input channels. -/
theorem set_params_sum_weights_normalized (net : CSPNNet) (s : ParamState) (N : ℕ)
    (inp : ℕ → ℕ → ℝ) (hroot : 0 < net.root.in_channels) :
    (∀ p dims, net.inner_layers.get? p = some (InnerLayer.sum dims) →
      ∃ w, (Cspn.set_params net s N inp).inner_states.get? p = some (InnerState.sum w) ∧
        w.d0 = N ∧ w.d1 = dims.in_features ∧ w.d2 = dims.in_channels ∧
        w.d3 = dims.out_channels ∧ w.d4 = dims.num_repetitions ∧
        (0 < dims.in_channels → ∀ n i k l,
          ∑ j ∈ Finset.range dims.in_channels, Real.exp (w.data n i j k l) = 1)) ∧
    ((Cspn.set_params net s N inp).root_weight.d0 = N ∧
      (Cspn.set_params net s N inp).root_weight.d1 = net.root.in_features ∧
      (Cspn.set_params net s N inp).root_weight.d2 = net.root.in_channels ∧
      (Cspn.set_params net s N inp).root_weight.d3 = net.root.out_channels ∧
      (Cspn.set_params net s N inp).root_weight.d4 = net.root.num_repetitions ∧
      ∀ n i k l, ∑ j ∈ Finset.range net.root.in_channels,
        Real.exp ((Cspn.set_params net s N inp).root_weight.data n i j k l) = 1) := by
  constructor
  · intro p dims h
    obtain ⟨hIdx, hh⟩ := set_inner_params_get net N
      (fun n => net.sum_layers (net.feat_layers (inp n))) net.inner_layers 0 p dims h
    refine ⟨_, hh, rfl, rfl, rfl, rfl, rfl, ?_⟩
    intro hc n i k l
    exact sum_exp_sub_log_sum dims.in_channels hc
      (fun j => (view5 N dims.in_features dims.in_channels dims.out_channels
        dims.num_repetitions
        (fun n => net.sum_param_heads hIdx (net.sum_layers (net.feat_layers (inp n))))).data n i j k l)
  · refine ⟨rfl, rfl, rfl, rfl, rfl, ?_⟩
    intro n i k l
    exact sum_exp_sub_log_sum net.root.in_channels hroot
      (fun j => (view5 N net.root.in_features net.root.in_channels net.root.out_channels
        net.root.num_repetitions
        (fun n => net.sum_param_heads
          (Cspn.set_inner_params net N (fun m => net.sum_layers (net.feat_layers (inp m)))
            net.inner_layers 0).2
          (net.sum_layers (net.feat_layers (inp n))))).data n i j k l)

/-- Witness for C1: instantiation at the concrete network `exNet`, batch size
1, discharging the positivity hypotheses on the input-channel counts. -/
theorem set_params_sum_weights_normalized_witness :
    0 < exNet.root.in_channels ∧
    (∃ w, (Cspn.set_params exNet ex0 1 exInp0).inner_states.get? 0 = some (InnerState.sum w) ∧
      w.d0 = 1 ∧ w.d1 = 1 ∧ w.d2 = 2 ∧ w.d3 = 1 ∧ w.d4 = 1 ∧
      (0 < 2 → ∀ n i k l, ∑ j ∈ Finset.range 2, Real.exp (w.data n i j k l) = 1)) ∧
    (∀ n i k l, ∑ j ∈ Finset.range exNet.root.in_channels,
      Real.exp ((Cspn.set_params exNet ex0 1 exInp0).root_weight.data n i j k l) = 1) :=
  ⟨by decide,
   (set_params_sum_weights_normalized exNet ex0 1 exInp0 (by decide)).1 0 ⟨1, 2, 1, 1⟩ rfl,
   (set_params_sum_weights_normalized exNet ex0 1 exInp0 (by decide)).2.2.2.2.2.2⟩

/-- C2 counterexample: at the concrete network `exNet` (C = 2 root classes)
and a conditioning batch of size 1, the injected sampling-root weight tensor
has a singleton input-channel axis rather than C components, and its
probability-space sum over that axis is 1/2, not 1.  (Each stored entry is
log(1/C); only broadcast over the C root components would the mass sum
to 1.) -/
theorem sampling_root_not_summing_to_one :
    (Cspn.set_params exNet ex0 1 exInp0).sampling_root_weight.d2 ≠ exNet.C ∧
    (∑ j ∈ Finset.range (Cspn.set_params exNet ex0 1 exInp0).sampling_root_weight.d2,
      Real.exp ((Cspn.set_params exNet ex0 1 exInp0).sampling_root_weight.data 0 0 j 0 0)) ≠ 1 := by
  constructor
  · decide
  · rw [show (Cspn.set_params exNet ex0 1 exInp0).sampling_root_weight.d2 = 1 from rfl]
    rw [Finset.sum_range_one]
    rw [show (Cspn.set_params exNet ex0 1 exInp0).sampling_root_weight.data 0 0 0 0 0 =
      Real.log (1 / ((2 : ℕ) : ℝ)) from rfl]
    rw [Real.exp_log (by norm_num)]
    norm_num

/-- C2 amended: after `set_params` on a batch of size N, the sampling-root
weight tensor has shape (N, 1, 1, 1, 1); every entry equals log(1/C), the
log of the uniform probability over the C root components, so that the C
components it stands for (by broadcasting) carry total probability mass 1. -/
theorem set_params_sampling_root_uniform (net : CSPNNet) (s : ParamState) (N : ℕ)
    (inp : ℕ → ℕ → ℝ) (hC : 0 < net.C) :
    (Cspn.set_params net s N inp).sampling_root_weight.d0 = N ∧
    (Cspn.set_params net s N inp).sampling_root_weight.d1 = 1 ∧
    (Cspn.set_params net s N inp).sampling_root_weight.d2 = 1 ∧
    (Cspn.set_params net s N inp).sampling_root_weight.d3 = 1 ∧
    (Cspn.set_params net s N inp).sampling_root_weight.d4 = 1 ∧
    (∀ n i j k l, (Cspn.set_params net s N inp).sampling_root_weight.data n i j k l =
      Real.log (1 / (net.C : ℝ))) ∧
    (net.C : ℝ) * Real.exp (Real.log (1 / (net.C : ℝ))) = 1 := by
  have hCpos : (0 : ℝ) < (net.C : ℝ) := by exact_mod_cast hC
  refine ⟨rfl, rfl, rfl, rfl, rfl, fun n i j k l => rfl, ?_⟩
  rw [Real.exp_log (by positivity)]
  field_simp

/-- Witness for the amended C2: instantiation at `exNet` (C = 2), batch
size 1. -/
theorem set_params_sampling_root_uniform_witness :
    0 < exNet.C ∧ (exNet.C : ℝ) * Real.exp (Real.log (1 / (exNet.C : ℝ))) = 1 :=
  ⟨by decide, (set_params_sampling_root_uniform exNet ex0 1 exInp0 (by decide)).2.2.2.2.2.2⟩

/-- C3 counterexample: for the concrete 3-D conditioning shape (1, 2, 2),
`create_feat_layers` raises the unconditional assertion instead of building a
convolutional feature-extractor stack; no extractor is ever produced. -/
theorem create_feat_layers_3d_fails_concrete :
    Cspn.create_feat_layers [1, 2, 2] [] =
      Except.error "Adapt conv layer feat extraction to config.feat_layer_sizes" ∧
    ¬ ∃ fe, Cspn.create_feat_layers [1, 2, 2] [] = Except.ok fe := by
  refine ⟨rfl, ?_⟩
  rintro ⟨fe, h⟩
  rw [show Cspn.create_feat_layers [1, 2, 2] [] =
    Except.error "Adapt conv layer feat extraction to config.feat_layer_sizes" from rfl] at h
  exact Except.noConfusion h

/-- C3 amended: for every configured conditioning input shape that is 3-D
(channels, rows, columns), CSPN construction fails with an assertion error
("Adapt conv layer feat extraction to config.feat_layer_sizes"); the
convolutional+pooling feature-extractor stack is never built. -/
theorem create_feat_layers_3d_fails (feature_dim : List ℕ) (cfg : List ℕ)
    (h3 : feature_dim.length = 3) :
    Cspn.create_feat_layers feature_dim cfg =
      Except.error "Adapt conv layer feat extraction to config.feat_layer_sizes" := by
  simp [Cspn.create_feat_layers, h3]

/-- Witness for the amended C3: the concrete 3-D shape (3, 4, 5). -/
theorem create_feat_layers_3d_fails_witness :
    ([3, 4, 5] : List ℕ).length = 3 ∧
    Cspn.create_feat_layers [3, 4, 5] [7] =
      Except.error "Adapt conv layer feat extraction to config.feat_layer_sizes" :=
  ⟨by decide, create_feat_layers_3d_fails [3, 4, 5] [7] (by decide)⟩

/-- C4: in evaluation mode (all modules deterministic functions, dropout
disabled), calling `set_params` twice with the identical conditioning tensor
leaves exactly the injected parameter state of the first call: the injection
recomputes every slot (all sum-layer weights, root weights, sampling-root
weights, leaf means and stds) from the condition and the module weights alone,
independently of the previous slot contents. -/
theorem set_params_idempotent (net : CSPNNet) (s : ParamState) (N : ℕ)
    (inp : ℕ → ℕ → ℝ) :
    Cspn.set_params net (Cspn.set_params net s N inp) N inp = Cspn.set_params net s N inp := rfl

/-- C5: with W weight sets currently injected, a 3-D data shape
(batch, weight sets, features) is delegated unchanged exactly when its second
dimension equals W and otherwise fails, and a 2-D data shape
(weight sets, features) is delegated with a singleton leading batch axis
exactly when its first dimension equals W and otherwise fails. -/
theorem forward_shape_contract (s : ParamState) (b w f : ℕ) :
    (Cspn.forward s [b, w, f] =
      if w = s.leaf_mean.d0 then Except.ok [b, w, f]
      else Except.error "the number of conditionals in the input data does not match the number of conditionals the CSPN weights expect") ∧
    (Cspn.forward s [w, f] =
      if w = s.leaf_mean.d0 then Except.ok [1, w, f]
      else Except.error "the number of samples does not match the number of conditionals") :=
  ⟨rfl, rfl⟩

/-- The inner walk of `clear_params` assigns, to each Sum layer position, the
zero tensor with leading dimension 0 and the layer's own dimensions. -/
theorem clear_inner_params_get :
    ∀ (L : List InnerLayer) (p : ℕ) (dims : SumDims),
      L.get? p = some (InnerLayer.sum dims) →
      (Cspn.clear_inner_params L).get? p = some (InnerState.sum ⟨0, dims.in_features,
        dims.in_channels, dims.out_channels, dims.num_repetitions, fun _ _ _ _ _ => 0⟩) := by
  intro L
  induction L with
  | nil => intro p dims h; simp [List.get?] at h
  | cons head rest ih =>
      intro p dims h
      cases head with
      | sum d =>
          cases p with
          | zero =>
              have hd : d = dims := by
                have hx := h
                simp [List.get?] at hx
                cases hx
                rfl
              subst hd
              rfl
          | succ p' =>
              simpa [Cspn.clear_inner_params, List.get?] using
                ih p' dims (by simpa [List.get?] using h)
      | crossProduct =>
          cases p with
          | zero => simp [List.get?] at h
          | succ p' =>
              simpa [Cspn.clear_inner_params, List.get?] using
                ih p' dims (by simpa [List.get?] using h)

/-- C6: after `clear_params`, every parameter slot (each Sum-bearing inner
layer's weights, the root weights, the sampling-root weights, and the leaf
mean and std tensors) is a zero tensor with leading dimension 0, and a
subsequent likelihood forward without a fresh condition fails for any 3-D or
2-D data shape with a positive weight-set dimension, instead of silently
reusing the previous batch's values. -/
theorem clear_params_zeroes_all_slots (net : CSPNNet) :
    (∀ p dims, net.inner_layers.get? p = some (InnerLayer.sum dims) →
      (Cspn.clear_params net).inner_states.get? p = some (InnerState.sum ⟨0, dims.in_features,
        dims.in_channels, dims.out_channels, dims.num_repetitions, fun _ _ _ _ _ => 0⟩)) ∧
    (Cspn.clear_params net).root_weight = ⟨0, net.root.in_features, net.root.in_channels,
      net.root.out_channels, net.root.num_repetitions, fun _ _ _ _ _ => 0⟩ ∧
    (Cspn.clear_params net).sampling_root_weight = ⟨0, 1, 1, 1, 1, fun _ _ _ _ _ => 0⟩ ∧
    (Cspn.clear_params net).leaf_mean = ⟨0, net.leaf_in_features, net.I, net.R, fun _ _ _ _ => 0⟩ ∧
    (Cspn.clear_params net).leaf_std = ⟨0, net.leaf_in_features, net.I, net.R, fun _ _ _ _ => 0⟩ ∧
    (∀ b w f, 0 < w →
      (∃ e, Cspn.forward (Cspn.clear_params net) [b, w, f] = Except.error e) ∧
      (∃ e, Cspn.forward (Cspn.clear_params net) [w, f] = Except.error e)) := by
  refine ⟨fun p dims h => clear_inner_params_get net.inner_layers p dims h,
    rfl, rfl, rfl, rfl, ?_⟩
  intro b w f hw
  constructor
  · exact ⟨"the number of conditionals in the input data does not match the number of conditionals the CSPN weights expect",
      by simp [Cspn.forward, Cspn.clear_params, hw.ne.symm]⟩
  · exact ⟨"the number of samples does not match the number of conditionals",
      by simp [Cspn.forward, Cspn.clear_params, hw.ne.symm]⟩

/-- Witness for C6: at the concrete network `exNet`, the first inner layer's
slot is zeroed and concrete 3-D and 2-D data shapes with positive weight-set
dimension are rejected after `clear_params`. -/
theorem clear_params_zeroes_all_slots_witness :
    (Cspn.clear_params exNet).inner_states.get? 0 =
      some (InnerState.sum ⟨0, 1, 2, 1, 1, fun _ _ _ _ _ => 0⟩) ∧
    (∃ e, Cspn.forward (Cspn.clear_params exNet) [2, 3, 4] = Except.error e) ∧
    (∃ e, Cspn.forward (Cspn.clear_params exNet) [3, 4] = Except.error e) :=
  ⟨(clear_params_zeroes_all_slots exNet).1 0 ⟨1, 2, 1, 1⟩ rfl,
   ((clear_params_zeroes_all_slots exNet).2.2.2.2.2 2 3 4 (by decide)).1,
   ((clear_params_zeroes_all_slots exNet).2.2.2.2.2 0 3 4 (by decide)).2⟩

/-- C7: after `set_params` on a batch of size N, the leaf mean and std slots
have shape (N, in_features, I, R) and hold exactly the leaf's bounding
transforms applied to the reshaped outputs of the mean head and the std head
respectively; every injected standard-deviation value is strictly positive
(and, being a real number of the model, finite). -/
theorem set_params_leaf_params_bounded (net : CSPNNet) (s : ParamState) (N : ℕ)
    (inp : ℕ → ℕ → ℝ) :
    (Cspn.set_params net s N inp).leaf_mean =
      mapTensor4 bounded_means (view4 N net.leaf_in_features net.I net.R
        (fun n => net.dist_mean_head (net.dist_layers (net.feat_layers (inp n))))) ∧
    (Cspn.set_params net s N inp).leaf_std =
      mapTensor4 bounded_stds (view4 N net.leaf_in_features net.I net.R
        (fun n => net.dist_std_head (net.dist_layers (net.feat_layers (inp n))))) ∧
    (Cspn.set_params net s N inp).leaf_mean.d0 = N ∧
    (Cspn.set_params net s N inp).leaf_mean.d1 = net.leaf_in_features ∧
    (Cspn.set_params net s N inp).leaf_mean.d2 = net.I ∧
    (Cspn.set_params net s N inp).leaf_mean.d3 = net.R ∧
    (Cspn.set_params net s N inp).leaf_std.d0 = N ∧
    (Cspn.set_params net s N inp).leaf_std.d1 = net.leaf_in_features ∧
    (Cspn.set_params net s N inp).leaf_std.d2 = net.I ∧
    (Cspn.set_params net s N inp).leaf_std.d3 = net.R ∧
    (∀ n i j k, 0 < (Cspn.set_params net s N inp).leaf_std.data n i j k) :=
  ⟨rfl, rfl, rfl, rfl, rfl, rfl, rfl, rfl, rfl, rfl, fun _ _ _ _ => Real.exp_pos _⟩

/-- C8: the two CSPN variants' parameter-injection routines are not
equivalent.  On the network `exNet` (whose heads output the zero vector,
giving both variants the same raw head outputs): the primary variant's
`set_params` injects a log-softmax-normalized root weight (summing to 1 in
probability space) and a bounded, strictly positive leaf std, while the
second variant's `compute_weights` injects the raw reshaped head outputs —
its root weight and leaf std differ from the primary's, its root weights do
not sum to 1 in probability space, its leaf std is not positive, and in
general its leaf std slot is exactly the raw reshaped std-head output with no
bounding. -/
theorem set_params_compute_weights_diverge :
    ((Cspn.set_params exNet ex0 1 exInp0).root_weight.data 0 0 0 0 0 ≠
      (CspnExp.compute_weights exNet 1 exInp0).root_weight.data 0 0 0 0 0) ∧
    ((Cspn.set_params exNet ex0 1 exInp0).leaf_std.data 0 0 0 0 ≠
      (CspnExp.compute_weights exNet 1 exInp0).leaf_std.data 0 0 0 0) ∧
    (∑ j ∈ Finset.range 2,
      Real.exp ((Cspn.set_params exNet ex0 1 exInp0).root_weight.data 0 0 j 0 0) = 1) ∧
    (∑ j ∈ Finset.range 2,
      Real.exp ((CspnExp.compute_weights exNet 1 exInp0).root_weight.data 0 0 j 0 0) ≠ 1) ∧
    (0 < (Cspn.set_params exNet ex0 1 exInp0).leaf_std.data 0 0 0 0) ∧
    ¬ (0 < (CspnExp.compute_weights exNet 1 exInp0).leaf_std.data 0 0 0 0) ∧
    (∀ (net : CSPNNet) (N : ℕ) (inp : ℕ → ℕ → ℝ),
      (CspnExp.compute_weights net N inp).leaf_std =
        view4 N net.leaf_in_features net.I net.R
          (fun n => net.dist_std_head (net.dist_layers (net.feat_layers (inp n))))) := by
  have hset : ∀ j, (Cspn.set_params exNet ex0 1 exInp0).root_weight.data 0 0 j 0 0 =
      0 - Real.log (∑ q ∈ Finset.range 2, Real.exp 0) := fun j => rfl
  have hsum2 : (∑ q ∈ Finset.range 2, Real.exp 0) = 2 := by
    simp [Real.exp_zero]
  have hlog : ∀ j, (Cspn.set_params exNet ex0 1 exInp0).root_weight.data 0 0 j 0 0 =
      -(Real.log 2) := by
    intro j
    rw [hset j, hsum2]
    ring
  have hraw : ∀ j, (CspnExp.compute_weights exNet 1 exInp0).root_weight.data 0 0 j 0 0 =
      (0 : ℝ) := fun j => rfl
  have hstd_set : (Cspn.set_params exNet ex0 1 exInp0).leaf_std.data 0 0 0 0 = Real.exp 0 := rfl
  have hstd_raw : (CspnExp.compute_weights exNet 1 exInp0).leaf_std.data 0 0 0 0 = (0 : ℝ) := rfl
  have hlog2_pos : (0 : ℝ) < Real.log 2 := Real.log_pos one_lt_two
  refine ⟨?_, ?_, ?_, ?_, ?_, ?_, fun net N inp => rfl⟩
  · rw [hlog 0, hraw 0]
    exact neg_ne_zero.mpr hlog2_pos.ne.symm
  · rw [hstd_set, hstd_raw, Real.exp_zero]
    norm_num
  · calc ∑ j ∈ Finset.range 2,
          Real.exp ((Cspn.set_params exNet ex0 1 exInp0).root_weight.data 0 0 j 0 0)
        = ∑ j ∈ Finset.range 2, Real.exp (-(Real.log 2)) := by
          refine Finset.sum_congr rfl fun j _ => ?_
          rw [hlog j]
      _ = 2 * Real.exp (-(Real.log 2)) := by
          rw [Finset.sum_const, Finset.card_range, nsmul_eq_mul]
          norm_num
      _ = 1 := by
          rw [Real.exp_neg, Real.exp_log (by norm_num : (0 : ℝ) < 2)]
          norm_num
  · have : ∑ j ∈ Finset.range 2,
        Real.exp ((CspnExp.compute_weights exNet 1 exInp0).root_weight.data 0 0 j 0 0) = 2 := by
      calc ∑ j ∈ Finset.range 2,
            Real.exp ((CspnExp.compute_weights exNet 1 exInp0).root_weight.data 0 0 j 0 0)
          = ∑ j ∈ Finset.range 2, Real.exp 0 := by
            refine Finset.sum_congr rfl fun j _ => ?_
            rw [hraw j]
        _ = 2 := hsum2
    rw [this]
    norm_num
  · rw [hstd_set]
    exact Real.exp_pos 0
  · rw [hstd_raw]
    exact lt_irrefl 0

/-- C9: when the sampling operation receives both a class-index list and a
condition, it fails with the batch-mismatch assertion unless the length of
the class-index list equals the condition's batch size; when they are equal
it delegates to the base circuit's sampling with the freshly injected
parameters and that class index. -/
theorem sample_class_index_batch_match (net : CSPNNet) (s : ParamState) (N : ℕ)
    (c : ℕ → ℕ → ℝ) (idx : List ℕ) :
    Cspn.sample net s (some (N, c)) (some idx) =
      if N = idx.length then Except.ok (Cspn.set_params net s N c, some idx)
      else Except.error "The batch size of the condition must equal the length of the class index list if they are provided!" := by
  by_cases h : N = idx.length <;> simp [Cspn.sample, h]

/-- C10: when a class-index list is supplied but no condition is given, the
sampling call raises an error (evaluating `condition.shape` on `None`) before
delegating to the base circuit — for every previously injected parameter
state, including one injected by a prior `set_params` call whose weight-set
count equals the class-index list's length. -/
theorem sample_class_index_without_condition_fails (net : CSPNNet) (s : ParamState)
    (idx : List ℕ) :
    Cspn.sample net s none (some idx) =
      Except.error "AttributeError: NoneType object has no attribute shape" := rfl
